import Mathlib

/-!
Verification development for the SyncNote music manager's MIDI recording
pipeline (the `MidiRecorder` React component): live capture of note events,
Standard-MIDI-File encoding, offline render scheduling, and WAV encoding.

Machine numbers are modelled as `ℤ`/`ℕ` (JavaScript integers: timestamps,
byte values, tick counts) and `ℚ` (JavaScript floating-point values that are
exactly representable in the ranges exercised here: velocities, seconds,
audio samples).  Byte buffers are `List ℕ` with every entry reduced modulo
256 where the source converts through `Uint8Array`/`DataView`.
-/

/-- Entry of the `recordedNotes` buffer, as built by the `noteon` listener:
`{ note, velocity, timestamp, duration, type }` with `duration = 0` until the
matching note-off arrives. -/
structure NoteEvent where
  note : ℕ
  velocity : ℚ
  timestamp : ℤ
  duration : ℤ
  type : String
deriving DecidableEq

/-- Condition tested by the `noteoff` listener's backward scan:
`updatedNotes[i].note === noteNumber && updatedNotes[i].type === 'noteon' &&
updatedNotes[i].duration === 0`. -/
def isOpenNote (p : ℕ) (e : NoteEvent) : Prop :=
  e.note = p ∧ e.type = "noteon" ∧ e.duration = 0

instance (p : ℕ) (e : NoteEvent) : Decidable (isOpenNote p e) :=
  inferInstanceAs (Decidable (e.note = p ∧ e.type = "noteon" ∧ e.duration = 0))

/-- Scan for the first entry (of the reversed buffer) satisfying
`isOpenNote`, set its duration to `offMs - timestamp`, and stop (the source's
backward `for` loop with `break`). -/
def closeLastOpen (p : ℕ) (offMs : ℤ) : List NoteEvent → List NoteEvent
  | [] => []
  | e :: rest =>
    if isOpenNote p e then { e with duration := offMs - e.timestamp } :: rest
    else e :: closeLastOpen p offMs rest

/-- The `noteoff` listener's buffer update: scan the buffer from the most
recent entry backward for the most recent open event of pitch `p`, patch its
duration in place, leave everything else unchanged. -/
def handleNoteOff (notes : List NoteEvent) (p : ℕ) (offMs : ℤ) : List NoteEvent :=
  (closeLastOpen p offMs notes.reverse).reverse

/-- Loop body of `encodeVariableLength`: the do-while loop
`b = v & 0x7F; v >>= 7; if (v > 0) b |= 0x80; bytes.push(b)` run until
`v = 0`.  Bytes are produced in push order (least-significant 7-bit group
first) and are never reversed. -/
def vlqLoop (v : ℕ) : List ℕ :=
  if v < 128 then [v]
  else (v % 128 + 128) :: vlqLoop (v / 128)
termination_by v
decreasing_by exact Nat.div_lt_self (by omega) (by norm_num)

/-- Source `encodeVariableLength(value)`: clamp negatives to 0, then run the
do-while loop. -/
def encodeVariableLength (value : ℤ) : List ℕ :=
  vlqLoop (if value < 0 then 0 else value).toNat

/-- Modelled from the spec (the standard, not the source): the 7-bit groups
of `d`, least-significant group first; at least one group. -/
def sevenBitGroups (d : ℕ) : List ℕ :=
  if d < 128 then [d] else d % 128 :: sevenBitGroups (d / 128)
termination_by d
decreasing_by exact Nat.div_lt_self (by omega) (by norm_num)

/-- Modelled from the spec: the standard MIDI variable-length quantity of
`d` — 7 data bits per byte, most-significant group first, continuation bit
`0x80` set on every byte except the last. -/
def stdVLQ (d : ℕ) : List ℕ :=
  match sevenBitGroups d with
  | [] => []
  | g :: gs => (g :: gs.map (fun b => b + 128)).reverse

/-- MIDI constant: ticks per quarter note (`const PPQ = 960`). -/
def PPQ : ℕ := 960

/-- MIDI constant: tempo (`const TEMPO_BPM = 500`). -/
def TEMPO_BPM : ℕ := 500

/-- JavaScript `Math.round`: round half toward positive infinity. -/
def jsRound (q : ℚ) : ℤ := ⌊q + 1 / 2⌋

/-- Source `msToTicks(ms)`: `Math.round((ms / 1000) * (PPQ * TEMPO_BPM / 60))`. -/
def msToTicks (ms : ℚ) : ℤ := jsRound (ms / 1000 * ((PPQ : ℚ) * (TEMPO_BPM : ℚ) / 60))

/-- Velocity byte of a note-on: `Math.floor(note.velocity * 127) || 64`. -/
def velocityByte (v : ℚ) : ℤ :=
  if ⌊v * 127⌋ = 0 then 64 else ⌊v * 127⌋

/-- One element of the `allEvents` array inside `convertNotesToMidiFile`:
`{tick, note, velocity, isNoteOn}`. -/
structure MidiEvt where
  tick : ℤ
  note : ℕ
  velocity : ℤ
  isNoteOn : Bool
deriving DecidableEq

/-- Comparator `(a, b) => a.timestamp - b.timestamp` as a stable ascending
sort key. -/
def leTimestamp (a b : NoteEvent) : Bool := decide (a.timestamp ≤ b.timestamp)

/-- Comparator `(a, b) => a.tick - b.tick` as a stable ascending sort key. -/
def leTick (a b : MidiEvt) : Bool := decide (a.tick ≤ b.tick)

/-- Guard of the event-building `forEach`:
`note.type === 'noteon' && note.duration > 0`. -/
def qualifies (n : NoteEvent) : Bool := n.type == "noteon" && decide (0 < n.duration)

/-- Note-on entry pushed for a qualifying note: tick from the onset,
velocity mapped through `velocityByte`. -/
def mkOn (n : NoteEvent) : MidiEvt :=
  { tick := msToTicks (n.timestamp : ℚ)
    note := n.note
    velocity := velocityByte n.velocity
    isNoteOn := true }

/-- Note-off entry pushed for a qualifying note: tick from onset + duration
(the combine step later fills `velocity: 0`). -/
def mkOff (n : NoteEvent) : MidiEvt :=
  { tick := msToTicks ((n.timestamp + n.duration : ℤ) : ℚ)
    note := n.note
    velocity := 0
    isNoteOn := false }

/-- The `sortedNotes` array: input sorted by timestamp (JavaScript `sort` is
stable). -/
def sortNotes (notes : List NoteEvent) : List NoteEvent := notes.mergeSort leTimestamp

/-- The `noteOnEvents` array after its own `sort` by tick. -/
def noteOnEvents (notes : List NoteEvent) : List MidiEvt :=
  (((sortNotes notes).filter qualifies).map mkOn).mergeSort leTick

/-- The `noteOffEvents` array after its own `sort` by tick. -/
def noteOffEvents (notes : List NoteEvent) : List MidiEvt :=
  (((sortNotes notes).filter qualifies).map mkOff).mergeSort leTick

/-- The `allEvents` array: tagged note-ons and note-offs combined and sorted
by tick. -/
def allEvents (notes : List NoteEvent) : List MidiEvt :=
  (noteOnEvents notes ++ noteOffEvents notes).mergeSort leTick

/-- Status/data bytes pushed for one event (lines 592–602): note-on
`0x90 note velocity`, note-off `0x80 note 0x40`. -/
def eventBytes (e : MidiEvt) : List ℤ :=
  if e.isNoteOn then [0x90, (e.note : ℤ), e.velocity] else [0x80, (e.note : ℤ), 0x40]

/-- The event-emission `for` loop (lines 582–605): each event is preceded by
`encodeVariableLength(currentTick - previousTick)`, and `previousTick` is
updated to the event's tick. -/
def emitEvents : ℤ → List MidiEvt → List ℤ
  | _, [] => []
  | previousTick, e :: rest =>
      (encodeVariableLength (e.tick - previousTick)).map (fun b => (b : ℤ)) ++
        eventBytes e ++ emitEvents e.tick rest

/-- Event section of the note track (`previousTick` starts at 0). -/
def noteTrackEventBytes (notes : List NoteEvent) : List ℤ :=
  emitEvents 0 (allEvents notes)

/-- Track-name meta event opening the note track. -/
def trackNameBytes (fileName : String) : List ℤ :=
  let trackName := "Recorded MIDI - " ++ fileName
  [0x00, 0xFF, 0x03, (trackName.length : ℤ)] ++ trackName.toList.map (fun c => (c.toNat : ℤ))

/-- Full `noteTrackData` array: track name, delta-encoded events, end of
track. -/
def noteTrackData (fileName : String) (notes : List NoteEvent) : List ℤ :=
  trackNameBytes fileName ++ noteTrackEventBytes notes ++ [0x00, 0xFF, 0x2F, 0x00]

/-- Source `microsecondsPerBeat = Math.round(60000000 / TEMPO_BPM)`. -/
def microsecondsPerBeat : ℤ := jsRound (60000000 / (TEMPO_BPM : ℚ))

/-- JavaScript `(x >> k) & 0xFF` for the non-negative values used here. -/
def shrByte (x : ℤ) (k : ℕ) : ℤ := x / 2 ^ k % 256

/-- The fixed `tempoTrackData` array: tempo meta event, 4/4 time signature,
end of track. -/
def tempoTrackData : List ℤ :=
  [0x00,
   0xFF, 0x51, 0x03,
   shrByte microsecondsPerBeat 16, shrByte microsecondsPerBeat 8, microsecondsPerBeat % 256,
   0x00,
   0xFF, 0x58, 0x04,
   0x04, 0x02, 0x18, 0x08,
   0x00, 0xFF, 0x2F, 0x00]

/-- Big-endian 32-bit track-size field
(`(size >> 24) & 0xFF, ..., size & 0xFF`). -/
def trackSizeBytes (size : ℕ) : List ℤ :=
  [(((size >>> 24) &&& 0xFF : ℕ) : ℤ), (((size >>> 16) &&& 0xFF : ℕ) : ℤ),
   (((size >>> 8) &&& 0xFF : ℕ) : ℤ), ((size &&& 0xFF : ℕ) : ℤ)]

/-- The `MThd` header chunk: format 1, 2 tracks, division `PPQ`. -/
def midiFileHeader : List ℤ :=
  [0x4d, 0x54, 0x68, 0x64,
   0x00, 0x00, 0x00, 0x06,
   0x00, 0x01,
   0x00, 0x02,
   (((PPQ >>> 8) &&& 0xFF : ℕ) : ℤ), ((PPQ &&& 0xFF : ℕ) : ℤ)]

/-- An `MTrk` chunk tag (used for both tracks). -/
def trackChunkTag : List ℤ := [0x4d, 0x54, 0x72, 0x6b]

/-- Conversion applied by the final `new Uint8Array([...])`: each entry
reduced modulo 256. -/
def toUint8 (b : ℤ) : ℕ := (b % 256).toNat

/-- Source `convertNotesToMidiFile(notes)` (with the component's `fileName`
state as an explicit argument): header, tempo track, note track. -/
def convertNotesToMidiFile (notes : List NoteEvent) (fileName : String) : List ℕ :=
  let noteData := noteTrackData fileName notes
  (midiFileHeader ++
    trackChunkTag ++ trackSizeBytes tempoTrackData.length ++ tempoTrackData ++
    trackChunkTag ++ trackSizeBytes noteData.length ++ noteData).map toUint8

/-- Lookup in the source's `noteNames` array (index taken modulo 12, so the
out-of-range default is never hit). -/
def noteNameAt (k : ℕ) : String :=
  match k with
  | 0 => "C"
  | 1 => "C#"
  | 2 => "D"
  | 3 => "D#"
  | 4 => "E"
  | 5 => "F"
  | 6 => "F#"
  | 7 => "G"
  | 8 => "G#"
  | 9 => "A"
  | 10 => "A#"
  | _ => "B"

/-- Source `midiToNoteName(midiNote)`:
`noteNames[midiNote % 12]` followed by the octave
`Math.floor(midiNote / 12) - 1` (an integer, possibly negative). -/
def midiToNoteName (midiNote : ℕ) : String :=
  let octave : ℤ := (midiNote / 12 : ℕ) - 1
  noteNameAt (midiNote % 12) ++ toString octave

/-- JavaScript `note.velocity || 0.7`. -/
def velocityOrDefault (v : ℚ) : ℚ := if v = 0 then 7 / 10 else v

/-- One `triggerAttackRelease` call scheduled into the offline context. -/
structure ScheduledNote where
  name : String
  velocity : ℚ
  startTime : ℚ
  duration : ℚ
deriving DecidableEq

/-- Parameters of the `Tone.OfflineContext` render that `downloadAsMP3`
builds: `new Tone.OfflineContext(2, recordingLengthSeconds, 44100)` plus the
notes scheduled into it. -/
structure RenderRequest where
  channels : ℕ
  lengthSeconds : ℕ
  sampleRate : ℕ
  scheduled : List ScheduledNote
deriving DecidableEq

/-- The scheduling `forEach` (lines 913–927): every sorted note with
`type === 'noteon' && duration > 0` becomes one `triggerAttackRelease`
at `timestamp / 1000` for `duration / 1000`. -/
def scheduleNotes (sorted : List NoteEvent) : List ScheduledNote :=
  sorted.filterMap fun n =>
    if qualifies n then
      some { name := midiToNoteName n.note
             velocity := velocityOrDefault n.velocity
             startTime := (n.timestamp : ℚ) / 1000
             duration := (n.duration : ℚ) / 1000 }
    else none

/-- Control flow of `downloadAsMP3` up to the render call (lines 800–813 and
913–927), with the component's `recordedNotes` and `recordingTime` state as
explicit arguments: an empty buffer returns early with an error and no render
happens; otherwise an offline context of `recordingTime + 3` seconds at
44100 Hz stereo is built and the qualifying notes are scheduled. -/
def downloadAsMP3 (recordedNotes : List NoteEvent) (recordingTime : ℕ) :
    Except String RenderRequest :=
  if recordedNotes.length = 0 then
    Except.error "No MIDI data to export. Please record something first."
  else
    let recordingLengthSeconds := recordingTime + 3
    let sorted := recordedNotes.mergeSort leTimestamp
    Except.ok
      { channels := 2
        lengthSeconds := recordingLengthSeconds
        sampleRate := 44100
        scheduled := scheduleNotes sorted }

/-- Modelled from the spec: the total render length it prescribes, namely
`max over events of (onsetMs + durationMs) / 1000` plus the fixed 3-second
tail allowance. -/
def specRenderLengthSeconds (notes : List NoteEvent) : ℚ :=
  (((notes.map (fun e => e.timestamp + e.duration)).foldr max 0 : ℤ) : ℚ) / 1000 + 3

/-- Source `writeString`: ASCII codes of the tag characters. -/
def writeString (s : String) : List ℕ := s.toList.map Char.toNat

/-- JavaScript truncation toward zero (applied by `DataView.setInt16` to a
non-integral number). -/
def ratTrunc (q : ℚ) : ℤ := if q < 0 then -⌊-q⌋ else ⌊q⌋

/-- One sample of `floatTo16BitPCM`: `s = Math.max(-1, Math.min(1, x))`,
then `s < 0 ? s * 0x8000 : s * 0x7FFF`, converted to a 16-bit integer. -/
def sampleToInt16 (x : ℚ) : ℤ :=
  let s := max (-1) (min 1 x)
  ratTrunc (if s < 0 then s * 0x8000 else s * 0x7FFF)

/-- Little-endian bytes of a 16-bit integer as stored by `setInt16`
(two's complement: the value is reduced modulo 2^16). -/
def int16ToBytes (v : ℤ) : List ℕ :=
  let u := (v % 65536).toNat
  [u % 256, u / 256]

/-- Source `floatTo16BitPCM`: convert every float sample and write it as two
little-endian bytes. -/
def floatTo16BitPCM (input : List ℚ) : List ℕ :=
  input.flatMap fun x => int16ToBytes (sampleToInt16 x)

/-- Little-endian bytes written by `DataView.setUint16`. -/
def uint16le (n : ℕ) : List ℕ := [n % 256, n / 2 ^ 8 % 256]

/-- Little-endian bytes written by `DataView.setUint32`. -/
def uint32le (n : ℕ) : List ℕ :=
  [n % 256, n / 2 ^ 8 % 256, n / 2 ^ 16 % 256, n / 2 ^ 24 % 256]

/-- Source `createWaveFile(audioData, sampleRate, numChannels)`: the 44-byte
RIFF/WAVE/fmt/data header (written by consecutive `DataView` calls at offsets
0–43) followed by the 16-bit PCM data. -/
def createWaveFile (audioData : List ℚ) (sampleRate : ℕ) (numChannels : ℕ) : List ℕ :=
  let bitsPerSample := 16
  let bytesPerSample := bitsPerSample / 8
  let blockAlign := numChannels * bytesPerSample
  let byteRate := sampleRate * blockAlign
  let dataSize := audioData.length * bytesPerSample
  writeString "RIFF" ++ uint32le (36 + dataSize) ++ writeString "WAVE" ++
    writeString "fmt " ++ uint32le 16 ++ uint16le 1 ++ uint16le numChannels ++
    uint32le sampleRate ++ uint32le byteRate ++ uint16le blockAlign ++
    uint16le bitsPerSample ++ writeString "data" ++ uint32le dataSize ++
    floatTo16BitPCM audioData

/-- Modelled from the spec: each delta-encoded event of the note track is the
variable-length encoding of its tick minus the previous event's tick (0 for
the first event), followed by its status/data bytes. -/
def deltaEncodedFrom (previousTick : ℤ) (evs : List MidiEvt) : List ℤ :=
  (evs.zip (previousTick :: evs.map (fun e => e.tick))).flatMap
    (fun pe => (encodeVariableLength (pe.1.tick - pe.2)).map (fun b => (b : ℤ)) ++ eventBytes pe.1)

/-! ## Helper lemmas -/

theorem vlqLoop_ne_nil (v : ℕ) : vlqLoop v ≠ [] := by
  rw [vlqLoop]
  split <;> simp

theorem vlqLoop_small (v : ℕ) (h : v < 128) : vlqLoop v = [v] := by
  rw [vlqLoop, if_pos h]

theorem closeLastOpen_no_match (p : ℕ) (offMs : ℤ) (l : List NoteEvent)
    (h : ∀ e ∈ l, ¬ isOpenNote p e) : closeLastOpen p offMs l = l := by
  induction l with
  | nil => rfl
  | cons e rest ih =>
    rw [closeLastOpen, if_neg (h e (List.mem_cons_self e rest))]
    exact congrArg _ (ih fun x hx => h x (List.mem_cons_of_mem e hx))

theorem closeLastOpen_first_match (p : ℕ) (offMs : ℤ) (a : List NoteEvent)
    (e : NoteEvent) (b : List NoteEvent) (ha : ∀ x ∈ a, ¬ isOpenNote p x)
    (he : isOpenNote p e) :
    closeLastOpen p offMs (a ++ e :: b) =
      a ++ { e with duration := offMs - e.timestamp } :: b := by
  induction a with
  | nil => simp [closeLastOpen, if_pos he]
  | cons x a ih =>
    rw [List.cons_append, closeLastOpen, if_neg (ha x (List.mem_cons_self x a))]
    exact congrArg _ (ih fun y hy => ha y (List.mem_cons_of_mem x hy))

/-! ## Claims about the variable-length-quantity encoder -/

/-- Claim C1: the encoder's variable-length-quantity function is claimed to
produce the standard MIDI VLQ byte sequence (7 data bits per byte,
continuation bit on all bytes but the last, most-significant 7-bit group
first).  The code contradicts its own comment "(MIDI standard)": it emits
the least-significant 7-bit group first and never reverses, so already at
input 128 it produces `[0x80, 0x01]` where the standard requires
`[0x81, 0x00]`. -/
theorem C1_vlq_diverges_from_standard :
    encodeVariableLength 128 = [0x80, 0x01] ∧ stdVLQ 128 = [0x81, 0x00] ∧
      encodeVariableLength 128 ≠ stdVLQ 128 := by
  have hv1 : vlqLoop 1 = [1] := vlqLoop_small 1 (by norm_num)
  have hv128 : vlqLoop 128 = [0x80, 0x01] := by
    rw [vlqLoop, if_neg (by norm_num)]
    norm_num [hv1]
  have h1 : encodeVariableLength 128 = [0x80, 0x01] := by
    rw [encodeVariableLength, if_neg (by norm_num)]
    exact hv128
  have hg1 : sevenBitGroups 1 = [1] := by
    rw [sevenBitGroups]
    norm_num
  have hg128 : sevenBitGroups 128 = [0, 1] := by
    rw [sevenBitGroups, if_neg (by norm_num)]
    norm_num [hg1]
  have h2 : stdVLQ 128 = [0x81, 0x00] := by
    rw [stdVLQ, hg128]
    rfl
  refine ⟨h1, h2, ?_⟩
  rw [h1, h2]
  simp

/-- Claim C10: the variable-length-quantity encoder is total and always
returns a non-empty byte sequence; every negative input is clamped to 0 and
encodes as the single byte `0x00`, and every input in 0–127 encodes as
exactly one byte equal to the input value. -/
theorem C10_vlq_total (value : ℤ) :
    encodeVariableLength value ≠ [] ∧
      (value < 0 → encodeVariableLength value = [0]) ∧
      (0 ≤ value → value ≤ 127 → encodeVariableLength value = [value.toNat]) := by
  refine ⟨vlqLoop_ne_nil _, fun hneg => ?_, fun h0 h127 => ?_⟩
  · rw [encodeVariableLength, if_pos hneg]
    exact vlqLoop_small 0 (by norm_num)
  · rw [encodeVariableLength, if_neg (by omega)]
    exact vlqLoop_small value.toNat (by omega)

/-- Witness for C10 at concrete inputs −5 and 100. -/
theorem C10_vlq_total_witness :
    encodeVariableLength (-5) = [0] ∧ encodeVariableLength 100 = [100] := by
  constructor
  · exact (C10_vlq_total (-5)).2.1 (by norm_num)
  · have h := (C10_vlq_total 100).2.2 (by norm_num) (by norm_num)
    simpa using h

/-! ## Claim about the note-off matching of the capture layer -/

/-- Claim C3: a note-off of pitch `p` at `offMs` closes exactly the most
recently appended open note-on of pitch `p` (setting its duration to
`offMs - onsetMs` and leaving every other entry and field unchanged); with
no open match the buffer is unchanged; for two overlapping same-pitch
note-ons the first note-off closes the most recently opened one (LIFO). -/
theorem C3_noteoff_lifo_matching (p : ℕ) (offMs : ℤ) :
    (∀ notes : List NoteEvent, (∀ e ∈ notes, ¬ isOpenNote p e) →
        handleNoteOff notes p offMs = notes) ∧
      (∀ (pre : List NoteEvent) (e : NoteEvent) (post : List NoteEvent),
        isOpenNote p e → (∀ x ∈ post, ¬ isOpenNote p x) →
        handleNoteOff (pre ++ e :: post) p offMs =
          pre ++ { e with duration := offMs - e.timestamp } :: post) ∧
      (∀ e1 e2 : NoteEvent, isOpenNote p e1 → isOpenNote p e2 →
        handleNoteOff [e1, e2] p offMs =
          [e1, { e2 with duration := offMs - e2.timestamp }]) := by
  have hmain : ∀ (pre : List NoteEvent) (e : NoteEvent) (post : List NoteEvent),
      isOpenNote p e → (∀ x ∈ post, ¬ isOpenNote p x) →
      handleNoteOff (pre ++ e :: post) p offMs =
        pre ++ { e with duration := offMs - e.timestamp } :: post := by
    intro pre e post he hpost
    rw [handleNoteOff]
    have hrev : (pre ++ e :: post).reverse = post.reverse ++ e :: pre.reverse := by
      simp
    rw [hrev, closeLastOpen_first_match p offMs post.reverse e pre.reverse
      (fun x hx => hpost x (List.mem_reverse.mp hx)) he]
    simp
  refine ⟨fun notes h => ?_, hmain, fun e1 e2 h1 h2 => ?_⟩
  · rw [handleNoteOff,
      closeLastOpen_no_match p offMs notes.reverse
        (fun e he => h e (List.mem_reverse.mp he)),
      List.reverse_reverse]
  · have h := hmain [e1] e2 [] h2 (by simp)
    simpa using h

/-- Witness for C3: two overlapping note-ons of pitch 60 (onsets 0 and
250 ms, both still open); the note-off at 750 ms closes the one opened at
250 ms, giving it duration 500 ms. -/
theorem C3_noteoff_lifo_matching_witness :
    handleNoteOff
        [⟨60, 1/2, 0, 0, "noteon"⟩, ⟨60, 1/2, 250, 0, "noteon"⟩] 60 750 =
      [⟨60, 1/2, 0, 0, "noteon"⟩, ⟨60, 1/2, 250, 500, "noteon"⟩] := by
  have h := (C3_noteoff_lifo_matching 60 750).2.2
    ⟨60, 1/2, 0, 0, "noteon"⟩ ⟨60, 1/2, 250, 0, "noteon"⟩
    ⟨rfl, rfl, rfl⟩ ⟨rfl, rfl, rfl⟩
  simpa using h

/-! ## Claim about the velocity mapping of the encoder -/

/-- Claim C6: the velocity byte written for a note-on is the 0.0–1.0 float
velocity mapped into 0–127 (via `Math.floor(v * 127)`), with fallback 64
whenever the computed value is zero; for input velocity 0.8 the encoded
velocity is 101, which is within 1 of the claimed ≈102. -/
theorem C6_velocity_mapping (n : NoteEvent) (h0 : 0 ≤ n.velocity) (h1 : n.velocity ≤ 1) :
    (mkOn n).velocity = velocityByte n.velocity ∧
      (0 ≤ (mkOn n).velocity ∧ (mkOn n).velocity ≤ 127) ∧
      (⌊n.velocity * 127⌋ = 0 → (mkOn n).velocity = 64) ∧
      (n.velocity = 4 / 5 → (mkOn n).velocity = 101 ∧ |(mkOn n).velocity - 102| ≤ 1) := by
  have hfl : (0 : ℤ) ≤ ⌊n.velocity * 127⌋ := by
    rw [Int.floor_nonneg]
    positivity
  have hfu : ⌊n.velocity * 127⌋ ≤ 127 := by
    have : n.velocity * 127 ≤ (127 : ℚ) := by nlinarith
    calc ⌊n.velocity * 127⌋ ≤ ⌊(127 : ℚ)⌋ := Int.floor_le_floor this
      _ = 127 := by norm_num
  have hvb : (mkOn n).velocity = velocityByte n.velocity := rfl
  refine ⟨hvb, ⟨?_, ?_⟩, fun hz => ?_, fun h45 => ?_⟩
  · rw [hvb, velocityByte]
    split <;> omega
  · rw [hvb, velocityByte]
    split <;> omega
  · rw [hvb, velocityByte, if_pos hz]
  · have hq : ⌊n.velocity * 127⌋ = 101 := by
      rw [h45, Int.floor_eq_iff]
      norm_num
    have : (mkOn n).velocity = 101 := by
      rw [hvb, velocityByte, if_neg (by omega), hq]
    exact ⟨this, by rw [this]; norm_num⟩

/-- Witness for C6 at the concrete note of Scenario A (pitch 60,
velocity 0.8, held 500 ms). -/
theorem C6_velocity_mapping_witness :
    0 ≤ (mkOn ⟨60, 4/5, 0, 500, "noteon"⟩).velocity ∧
      (mkOn ⟨60, 4/5, 0, 500, "noteon"⟩).velocity ≤ 127 ∧
      (mkOn ⟨60, 4/5, 0, 500, "noteon"⟩).velocity = 101 := by
  have h := C6_velocity_mapping ⟨60, 4/5, 0, 500, "noteon"⟩ (by norm_num) (by norm_num)
  exact ⟨h.2.1.1, h.2.1.2, (h.2.2.2 rfl).1⟩

/-! ## Claims about the offline render request -/

/-- Claim C4 counterexample: the recording with a single note held from 0 to
750 ms, exported while the whole-second recording timer still reads 0,
renders with a total length of 3 seconds, while the claimed formula
`max(onsetMs + durationMs) / 1000 + 3` demands 3.75 seconds. -/
theorem C4_render_length_cex :
    (downloadAsMP3 [⟨60, 4/5, 0, 750, "noteon"⟩] 0).toOption.map
        (fun r => r.lengthSeconds) = some 3 ∧
      specRenderLengthSeconds [⟨60, 4/5, 0, 750, "noteon"⟩] = 375 / 100 ∧
      ((3 : ℚ) ≠ 375 / 100) := by
  refine ⟨?_, ?_, by norm_num⟩
  · rw [downloadAsMP3, if_neg (by norm_num)]
    rfl
  · rw [specRenderLengthSeconds]
    norm_num

/-- Claim C4, amended: for every non-empty recording the offline render's
total length in seconds is `recordingTime + 3`, where `recordingTime` is the
whole-second recording timer — independent of the event end times — giving
`(recordingTime + 3) * 44100` frames per channel at the fixed 44100 Hz
stereo format. -/
theorem C4_render_length_amended (recordedNotes : List NoteEvent) (recordingTime : ℕ)
    (h : recordedNotes ≠ []) :
    ∃ r, downloadAsMP3 recordedNotes recordingTime = Except.ok r ∧
      r.lengthSeconds = recordingTime + 3 ∧ r.channels = 2 ∧ r.sampleRate = 44100 ∧
      r.lengthSeconds * r.sampleRate = (recordingTime + 3) * 44100 := by
  rw [downloadAsMP3, if_neg (by simpa using h)]
  exact ⟨_, rfl, rfl, rfl, rfl, rfl⟩

/-- Witness for the amended C4 at the counterexample input. -/
theorem C4_render_length_amended_witness :
    ∃ r, downloadAsMP3 [⟨60, 4/5, 0, 750, "noteon"⟩] 0 = Except.ok r ∧
      r.lengthSeconds = 0 + 3 ∧ r.channels = 2 ∧ r.sampleRate = 44100 ∧
      r.lengthSeconds * r.sampleRate = (0 + 3) * 44100 :=
  C4_render_length_amended [⟨60, 4/5, 0, 750, "noteon"⟩] 0 (by simp)

/-- Claim C5 counterexample: a non-empty recording whose only event has
`durationMs = 0` is NOT rejected: the render proceeds (an audio artifact is
produced) with zero scheduled notes, instead of failing with
`NoRenderableNotes` as claimed. -/
theorem C5_zero_duration_still_renders :
    (downloadAsMP3 [⟨60, 4/5, 0, 0, "noteon"⟩] 1).isOk = true ∧
      (downloadAsMP3 [⟨60, 4/5, 0, 0, "noteon"⟩] 1).toOption.map
        (fun r => r.scheduled) = some [] := by
  rw [downloadAsMP3, if_neg (by norm_num)]
  refine ⟨rfl, ?_⟩
  have hms : ([⟨60, 4/5, 0, 0, "noteon"⟩] : List NoteEvent).mergeSort leTimestamp =
      [⟨60, 4/5, 0, 0, "noteon"⟩] := by
    simp [List.mergeSort]
  simp [hms, scheduleNotes, qualifies, Except.toOption]

/-- Claim C5, amended: only the empty recording is rejected (with the error
string and no render); a non-empty recording whose events all have
`durationMs = 0` still renders, producing a request with an empty schedule
(a silent artifact) — there is no `NoRenderableNotes` failure in the code. -/
theorem C5_empty_vs_zero_duration (notes : List NoteEvent) (rt : ℕ) :
    (notes = [] →
        downloadAsMP3 notes rt =
          Except.error "No MIDI data to export. Please record something first.") ∧
      (notes ≠ [] → (∀ e ∈ notes, e.duration = 0) →
        ∃ r, downloadAsMP3 notes rt = Except.ok r ∧ r.scheduled = []) := by
  constructor
  · intro hnil
    rw [downloadAsMP3, if_pos (by simp [hnil])]
  · intro hne hdur
    rw [downloadAsMP3, if_neg (by simpa using hne)]
    refine ⟨_, rfl, ?_⟩
    show scheduleNotes (notes.mergeSort leTimestamp) = []
    rw [scheduleNotes, List.filterMap_eq_nil_iff]
    intro n hn
    have hmem : n ∈ notes := (List.mergeSort_perm notes leTimestamp).subset hn
    have : qualifies n = false := by
      rw [qualifies, hdur n hmem]
      simp
    rw [this]
    simp

/-- Witness for the amended C5: the empty buffer errors out, and the
single zero-duration note renders with an empty schedule. -/
theorem C5_empty_vs_zero_duration_witness :
    downloadAsMP3 [] 0 =
        Except.error "No MIDI data to export. Please record something first." ∧
      ∃ r, downloadAsMP3 [⟨60, 4/5, 0, 0, "noteon"⟩] 1 = Except.ok r ∧
        r.scheduled = [] := by
  constructor
  · exact (C5_empty_vs_zero_duration [] 0).1 rfl
  · exact (C5_empty_vs_zero_duration [⟨60, 4/5, 0, 0, "noteon"⟩] 1).2
      (by simp) (by simp)

/-! ## Claims about the WAV encoder -/

theorem writeString_RIFF : writeString "RIFF" = [82, 73, 70, 70] := rfl

theorem writeString_WAVE : writeString "WAVE" = [87, 65, 86, 69] := rfl

theorem writeString_fmt : writeString "fmt " = [102, 109, 116, 32] := rfl

theorem writeString_data : writeString "data" = [100, 97, 116, 97] := rfl

/-- Byte layout of `createWaveFile`: 44 header bytes followed by the PCM
data. -/
theorem createWaveFile_split (audioData : List ℚ) (r c : ℕ) :
    createWaveFile audioData r c =
      ([82, 73, 70, 70] ++ uint32le (36 + audioData.length * 2) ++ [87, 65, 86, 69] ++
        [102, 109, 116, 32] ++ uint32le 16 ++ uint16le 1 ++ uint16le c ++
        uint32le r ++ uint32le (r * (c * 2)) ++ uint16le (c * 2) ++ uint16le 16 ++
        [100, 97, 116, 97] ++ uint32le (audioData.length * 2)) ++
          floatTo16BitPCM audioData := by
  simp only [createWaveFile, writeString_RIFF, writeString_WAVE, writeString_fmt,
    writeString_data]

theorem floatTo16BitPCM_length (l : List ℚ) : (floatTo16BitPCM l).length = 2 * l.length := by
  induction l with
  | nil => rfl
  | cons x xs ih =>
    simp only [floatTo16BitPCM, List.flatMap_cons, int16ToBytes] at *
    simp [ih]
    omega

/-- Claim C7: for a buffer of `n` per-channel samples in `c` channels at
rate `r` (so `n * c` interleaved samples), the WAV output is
`44 + n * c * 2` bytes; the RIFF size field (offset 4) is
`36 + dataSize`, the audio format (offset 20) is 1 (PCM), the channel count
(offset 22) is `c`, the sample rate (offset 24) is `r`, the byte rate
(offset 28) is `r * c * 2`, the block align (offset 32) is `c * 2`, the
bits-per-sample (offset 34) is 16, and the data chunk size (offset 40) is
`dataSize = n * c * 2`, every field little-endian. -/
theorem C7_wav_header (n c r : ℕ) (audioData : List ℚ)
    (hlen : audioData.length = n * c) :
    (createWaveFile audioData r c).length = 44 + n * c * 2 ∧
      (createWaveFile audioData r c).take 4 = [82, 73, 70, 70] ∧
      ((createWaveFile audioData r c).drop 4).take 4 = uint32le (36 + n * c * 2) ∧
      ((createWaveFile audioData r c).drop 20).take 2 = uint16le 1 ∧
      ((createWaveFile audioData r c).drop 22).take 2 = uint16le c ∧
      ((createWaveFile audioData r c).drop 24).take 4 = uint32le r ∧
      ((createWaveFile audioData r c).drop 28).take 4 = uint32le (r * c * 2) ∧
      ((createWaveFile audioData r c).drop 32).take 2 = uint16le (c * 2) ∧
      ((createWaveFile audioData r c).drop 34).take 2 = uint16le 16 ∧
      ((createWaveFile audioData r c).drop 40).take 4 = uint32le (n * c * 2) := by
  refine ⟨?_, ?_, ?_, ?_, ?_, ?_, ?_, ?_, ?_, ?_⟩
  · rw [createWaveFile_split, hlen]
    simp [uint32le, uint16le, floatTo16BitPCM_length, hlen]
    omega
  · rw [createWaveFile_split, hlen]
    simp [uint32le, uint16le]
  · rw [createWaveFile_split, hlen]
    simp [uint32le, uint16le]
  · rw [createWaveFile_split, hlen]
    simp [uint32le, uint16le]
  · rw [createWaveFile_split, hlen]
    simp [uint32le, uint16le]
  · rw [createWaveFile_split, hlen]
    simp [uint32le, uint16le]
  · rw [createWaveFile_split, hlen, Nat.mul_assoc r c 2]
    simp [uint32le, uint16le]
  · rw [createWaveFile_split, hlen]
    simp [uint32le, uint16le]
  · rw [createWaveFile_split, hlen]
    simp [uint32le, uint16le]
  · rw [createWaveFile_split, hlen]
    simp [uint32le, uint16le]

/-- Witness for C7: a one-sample mono buffer at rate 8. -/
theorem C7_wav_header_witness :
    (createWaveFile [0] 8 1).length = 44 + 1 * 1 * 2 ∧
      ((createWaveFile [0] 8 1).drop 40).take 4 = uint32le (1 * 1 * 2) := by
  have h := C7_wav_header 1 1 8 [0] (by simp)
  exact ⟨h.1, h.2.2.2.2.2.2.2.2.2⟩

theorem sampleToInt16_zero : sampleToInt16 0 = 0 := by
  have hmm : max (-1 : ℚ) (min 1 0) = 0 := by norm_num
  rw [sampleToInt16]
  norm_num [hmm, ratTrunc]

theorem floatTo16BitPCM_silence (m : ℕ) :
    floatTo16BitPCM (List.replicate m 0) = List.replicate (2 * m) 0 := by
  induction m with
  | zero => rfl
  | succ k ih =>
    rw [List.replicate_succ, show 2 * (k + 1) = 2 * k + 1 + 1 by omega,
      List.replicate_succ, List.replicate_succ]
    simp only [floatTo16BitPCM, List.flatMap_cons, sampleToInt16_zero] at *
    rw [ih]
    rfl

/-- Claim C8: WAV-encoding a 1-second 44100 Hz mono all-zero buffer gives
exactly `44 + 44100 * 2` bytes whose entire data section (offset 44 onward)
is zero bytes, because the clamped sample 0 scales to the 16-bit value 0. -/
theorem C8_wav_silent_second :
    (createWaveFile (List.replicate 44100 0) 44100 1).length = 44 + 44100 * 2 ∧
      (createWaveFile (List.replicate 44100 0) 44100 1).drop 44 =
        List.replicate (44100 * 2) 0 := by
  have hlen1 : (List.replicate 44100 (0 : ℚ)).length = 44100 := List.length_replicate 44100 0
  constructor
  · rw [createWaveFile_split, hlen1, List.length_append, floatTo16BitPCM_length, hlen1]
    simp [uint32le, uint16le]
  · rw [createWaveFile_split, hlen1,
      List.drop_left' (by simp [uint32le, uint16le]),
      floatTo16BitPCM_silence, Nat.mul_comm]

/-! ## Claims about the note track of the MIDI encoder -/

theorem leTick_trans (a b c : MidiEvt) (hab : leTick a b = true) (hbc : leTick b c = true) :
    leTick a c = true := by
  simp only [leTick, decide_eq_true_eq] at *
  omega

theorem leTick_total (a b : MidiEvt) : (leTick a b || leTick b a) = true := by
  simp only [leTick, Bool.or_eq_true, decide_eq_true_eq]
  omega

theorem allEvents_sorted (notes : List NoteEvent) :
    List.Sorted (fun a b : MidiEvt => a.tick ≤ b.tick) (allEvents notes) := by
  have hs := List.sorted_mergeSort leTick_trans leTick_total
    (noteOnEvents notes ++ noteOffEvents notes)
  exact hs.imp (fun h => by simpa [leTick] using h)

theorem emitEvents_eq_deltaEncodedFrom (evs : List MidiEvt) :
    ∀ previousTick : ℤ, emitEvents previousTick evs = deltaEncodedFrom previousTick evs := by
  induction evs with
  | nil => intro prev; rfl
  | cons e rest ih =>
    intro prev
    simp only [emitEvents, deltaEncodedFrom, List.map_cons, List.zip_cons_cons,
      List.flatMap_cons, List.append_assoc]
    rw [ih e.tick, deltaEncodedFrom]

theorem mem_noteOnEvents_isNoteOn (notes : List NoteEvent) (x : MidiEvt)
    (hx : x ∈ noteOnEvents notes) : x.isNoteOn = true := by
  rw [noteOnEvents] at hx
  have hx2 := (List.mergeSort_perm _ leTick).subset hx
  obtain ⟨n, -, rfl⟩ := List.mem_map.mp hx2
  rfl

theorem mem_noteOffEvents_not_isNoteOn (notes : List NoteEvent) (x : MidiEvt)
    (hx : x ∈ noteOffEvents notes) : x.isNoteOn = false := by
  rw [noteOffEvents] at hx
  have hx2 := (List.mergeSort_perm _ leTick).subset hx
  obtain ⟨n, -, rfl⟩ := List.mem_map.mp hx2
  rfl

theorem filter_qualifies_of_noteon (notes : List NoteEvent)
    (h : ∀ e ∈ notes, e.type = "noteon") :
    notes.filter qualifies = notes.filter (fun n => decide (0 < n.duration)) :=
  List.filter_congr fun n hn => by
    rw [qualifies, h n hn]
    simp

/-- Claim C2: in the encoder's note track, every recorded note with
`durationMs > 0` contributes exactly one note-on at tick
`round(onsetMs / 1000 * 960 * 500 / 60)` and exactly one note-off at tick
`round((onsetMs + durationMs) / 1000 * 960 * 500 / 60)` (zero-duration
events are dropped and contribute nothing), the events are emitted in
non-decreasing tick order, and each event is preceded by the
variable-length-encoded delta of its tick minus the previous event's tick
(0 before the first event). -/
theorem C2_note_track_events (notes : List NoteEvent)
    (h : ∀ e ∈ notes, e.type = "noteon") :
    ((allEvents notes).filter (fun e => e.isNoteOn)).Perm
        ((notes.filter (fun n => decide (0 < n.duration))).map (fun n =>
          ({ tick := jsRound ((n.timestamp : ℚ) / 1000 * (960 * 500 / 60))
             note := n.note
             velocity := velocityByte n.velocity
             isNoteOn := true } : MidiEvt))) ∧
      ((allEvents notes).filter (fun e => !e.isNoteOn)).Perm
        ((notes.filter (fun n => decide (0 < n.duration))).map (fun n =>
          ({ tick := jsRound (((n.timestamp + n.duration : ℤ) : ℚ) / 1000 * (960 * 500 / 60))
             note := n.note
             velocity := 0
             isNoteOn := false } : MidiEvt))) ∧
      List.Sorted (fun a b : MidiEvt => a.tick ≤ b.tick) (allEvents notes) ∧
      noteTrackEventBytes notes = deltaEncodedFrom 0 (allEvents notes) := by
  have hOnFun : (fun n : NoteEvent =>
      ({ tick := jsRound ((n.timestamp : ℚ) / 1000 * (960 * 500 / 60))
         note := n.note
         velocity := velocityByte n.velocity
         isNoteOn := true } : MidiEvt)) = mkOn := by
    funext n
    simp only [mkOn, msToTicks, PPQ, TEMPO_BPM]
    norm_num
  have hOffFun : (fun n : NoteEvent =>
      ({ tick := jsRound (((n.timestamp + n.duration : ℤ) : ℚ) / 1000 * (960 * 500 / 60))
         note := n.note
         velocity := 0
         isNoteOn := false } : MidiEvt)) = mkOff := by
    funext n
    simp only [mkOff, msToTicks, PPQ, TEMPO_BPM]
    norm_num
  have hsortperm : (sortNotes notes).Perm notes := List.mergeSort_perm notes leTimestamp
  have hfilters :
      ((sortNotes notes).filter qualifies).Perm
        (notes.filter (fun n => decide (0 < n.duration))) :=
    (filter_qualifies_of_noteon notes h) ▸ hsortperm.filter qualifies
  have hOnSelf : (noteOnEvents notes).filter (fun e => e.isNoteOn) = noteOnEvents notes :=
    List.filter_eq_self.mpr (mem_noteOnEvents_isNoteOn notes)
  have hOffNil : (noteOffEvents notes).filter (fun e => e.isNoteOn) = [] :=
    List.filter_eq_nil_iff.mpr
      (fun x hx => by simp [mem_noteOffEvents_not_isNoteOn notes x hx])
  have hOnNil : (noteOnEvents notes).filter (fun e => !e.isNoteOn) = [] :=
    List.filter_eq_nil_iff.mpr
      (fun x hx => by simp [mem_noteOnEvents_isNoteOn notes x hx])
  have hOffSelf : (noteOffEvents notes).filter (fun e => !e.isNoteOn) = noteOffEvents notes :=
    List.filter_eq_self.mpr
      (fun x hx => by simp [mem_noteOffEvents_not_isNoteOn notes x hx])
  refine ⟨?_, ?_, allEvents_sorted notes, emitEvents_eq_deltaEncodedFrom _ 0⟩
  · rw [hOnFun]
    have s1 : ((allEvents notes).filter (fun e => e.isNoteOn)).Perm
        ((noteOnEvents notes ++ noteOffEvents notes).filter (fun e => e.isNoteOn)) :=
      (List.mergeSort_perm _ leTick).filter _
    rw [List.filter_append, hOnSelf, hOffNil, List.append_nil] at s1
    have s3 : (noteOnEvents notes).Perm
        (((sortNotes notes).filter qualifies).map mkOn) := List.mergeSort_perm _ leTick
    exact s1.trans (s3.trans (hfilters.map mkOn))
  · rw [hOffFun]
    have s1 : ((allEvents notes).filter (fun e => !e.isNoteOn)).Perm
        ((noteOnEvents notes ++ noteOffEvents notes).filter (fun e => !e.isNoteOn)) :=
      (List.mergeSort_perm _ leTick).filter _
    rw [List.filter_append, hOnNil, hOffSelf, List.nil_append] at s1
    have s3 : (noteOffEvents notes).Perm
        (((sortNotes notes).filter qualifies).map mkOff) := List.mergeSort_perm _ leTick
    exact s1.trans (s3.trans (hfilters.map mkOff))

/-- Witness for C2 at the Scenario-A note (pitch 60, velocity 0.8, onset 0,
held 500 ms). -/
theorem C2_note_track_events_witness :
    ((allEvents [⟨60, 4/5, 0, 500, "noteon"⟩]).filter (fun e => e.isNoteOn)).Perm
        (([(⟨60, 4/5, 0, 500, "noteon"⟩ : NoteEvent)].filter
            (fun n => decide (0 < n.duration))).map (fun n =>
          ({ tick := jsRound ((n.timestamp : ℚ) / 1000 * (960 * 500 / 60))
             note := n.note
             velocity := velocityByte n.velocity
             isNoteOn := true } : MidiEvt))) ∧
      ((allEvents [⟨60, 4/5, 0, 500, "noteon"⟩]).filter (fun e => !e.isNoteOn)).Perm
        (([(⟨60, 4/5, 0, 500, "noteon"⟩ : NoteEvent)].filter
            (fun n => decide (0 < n.duration))).map (fun n =>
          ({ tick := jsRound (((n.timestamp + n.duration : ℤ) : ℚ) / 1000 * (960 * 500 / 60))
             note := n.note
             velocity := 0
             isNoteOn := false } : MidiEvt))) ∧
      List.Sorted (fun a b : MidiEvt => a.tick ≤ b.tick)
        (allEvents [⟨60, 4/5, 0, 500, "noteon"⟩]) ∧
      noteTrackEventBytes [⟨60, 4/5, 0, 500, "noteon"⟩] =
        deltaEncodedFrom 0 (allEvents [⟨60, 4/5, 0, 500, "noteon"⟩]) :=
  C2_note_track_events [⟨60, 4/5, 0, 500, "noteon"⟩]
    (fun e he => by rw [List.mem_singleton] at he; rw [he])

/-! ## Claim about determinism of the encoder -/

/-- Claim C9: the MIDI encoder is a deterministic function of the ordered
event sequence and the file name — in this embedding it is a pure function
of exactly those two inputs (the source reads nothing else that affects the
bytes), so running it twice yields byte-identical output. -/
theorem C9_encoder_deterministic (notes : List NoteEvent) (fileName : String) :
    convertNotesToMidiFile notes fileName = convertNotesToMidiFile notes fileName := rfl
